import Mathlib

/-!
Shallow embedding of three components of the graph-node repository:

* `src/core/src/subgraph/provider.rs` — the subgraph assignment provider
  (`start`, `stop`, `take_event_stream`, and its internal `clone`);
* `src/runtime/wasm/src/lib.rs` — the `MappingContext` structure and its
  `Clone` implementation;
* `src/thegraph-hyper/src/service.rs` — the `GraphQLService` request router.

Rust `HashSet<SubgraphDeploymentId>` is modelled as a `List String` used with
set discipline (membership-guarded insertion, removal of every occurrence);
`Arc` handles (logger, resolver, store, event sink, the shared running-set
cell) are modelled as opaque `Nat` tokens, so that two handles are shared
exactly when the tokens are equal.  Futures are unfolded: each provider
operation is a pure function from its inputs (including the outcome of the
asynchronous manifest resolution and of the store's index construction) to
a record of its state change, emitted events, store writes and result.
-/

/-- Opaque deployment identifier (`SubgraphDeploymentId`). -/
abbrev SubgraphDeploymentId := String

/-- Resolved manifest: the fields of `SubgraphManifest` that `start` reads —
its deployment id (`subgraph.id`) and its schema document
(`subgraph.schema.document`, passed to `attribute_index_definitions`). -/
structure SubgraphManifest where
  id : SubgraphDeploymentId
  schema_document : String
deriving Repr, DecidableEq

/-- Lifecycle events sent on the provider's event sink
(`SubgraphAssignmentProviderEvent`). -/
inductive SubgraphAssignmentProviderEvent where
  | SubgraphStart (manifest : SubgraphManifest)
  | SubgraphStop (id : SubgraphDeploymentId)
deriving Repr, DecidableEq

/-- Errors of the provider (`SubgraphAssignmentProviderError`); the payload of
`ResolveError` abstracts the inner resolution failure. -/
inductive SubgraphAssignmentProviderError where
  | ResolveError (e : String)
  | AlreadyRunning (id : SubgraphDeploymentId)
  | NotRunning (id : SubgraphDeploymentId)
deriving Repr, DecidableEq

/-- Everything `start` produces: the updated running-set, the events pushed
into the sink, the failed-flag writes applied to the store
(`apply_entity_operations` of `update_failed_operations(&subgraph_id, true)`
is compressed to the pair it persists), the log lines of the index
construction, and the value of the returned future. -/
structure StartResult where
  subgraphs_running : List SubgraphDeploymentId
  events : List SubgraphAssignmentProviderEvent
  failed_flag_writes : List (SubgraphDeploymentId × Bool)
  index_logs : List String
  result : Except SubgraphAssignmentProviderError Unit
deriving Repr

/-- `SubgraphAssignmentProvider::start`, unfolded over the resolution outcome.
`subgraphs_running` is the content of the shared `HashSet`; `resolution` is
the outcome of `SubgraphManifest::resolve`; `index_build` is the outcome of
`store.build_entity_attribute_indexes`, which the source discards with
`.ok()` after logging success.  The trailing `map_err` persists the
failed-flag for the caller-supplied `id` (captured as `subgraph_id` before
resolution) on every error path and passes the error through. -/
def start (subgraphs_running : List SubgraphDeploymentId)
    (id : SubgraphDeploymentId)
    (resolution : Except String SubgraphManifest)
    (index_build : Except String Unit) : StartResult :=
  match resolution with
  | .error e =>
      { subgraphs_running := subgraphs_running
        events := []
        failed_flag_writes := [(id, true)]
        index_logs := []
        result := .error (.ResolveError e) }
  | .ok subgraph =>
      if subgraph.id ∈ subgraphs_running then
        { subgraphs_running := subgraphs_running
          events := []
          failed_flag_writes := [(id, true)]
          index_logs := []
          result := .error (.AlreadyRunning subgraph.id) }
      else
        { subgraphs_running := subgraph.id :: subgraphs_running
          events := [.SubgraphStart subgraph]
          failed_flag_writes := []
          index_logs :=
            match index_build with
            | .ok _ => ["Successfully created attribute indexes for subgraph entities"]
            | .error _ => []
          result := .ok () }

/-- Everything `stop` produces. -/
structure StopResult where
  subgraphs_running : List SubgraphDeploymentId
  events : List SubgraphAssignmentProviderEvent
  result : Except SubgraphAssignmentProviderError Unit
deriving Repr

/-- `SubgraphAssignmentProvider::stop`: `HashSet::remove` returns whether the
id was present; on presence the id is removed and `SubgraphStop(id)` is sent,
otherwise the call fails with `NotRunning(id)`. -/
def stop (subgraphs_running : List SubgraphDeploymentId)
    (id : SubgraphDeploymentId) : StopResult :=
  if id ∈ subgraphs_running then
    { subgraphs_running := subgraphs_running.filter (fun x => x ≠ id)
      events := [.SubgraphStop id]
      result := .ok () }
  else
    { subgraphs_running := subgraphs_running
      events := []
      result := .error (.NotRunning id) }

/-- The provider handle (`SubgraphAssignmentProvider<L, S>`): the `Arc`-shared
fields are opaque tokens (equal token = same shared object); `event_stream`
is the optionally-held receiving end of the event channel, itself a token. -/
structure SubgraphAssignmentProvider where
  logger : Nat
  event_stream : Option Nat
  event_sink : Nat
  resolver : Nat
  subgraphs_running : Nat
  store : Nat
deriving Repr, DecidableEq

/-- `SubgraphAssignmentProvider::new`: creates a channel (token `ch`) whose
receiving end is held (`Some`) and whose sending end is the sink; the
running-set cell, resolver and store are fresh/injected handles. -/
def SubgraphAssignmentProvider.new (logger ch resolver running store : Nat) :
    SubgraphAssignmentProvider :=
  { logger := logger
    event_stream := some ch
    event_sink := ch
    resolver := resolver
    subgraphs_running := running
    store := store }

/-- The provider's internal `clone`: clones every field but forces the
receiver to `None`. -/
def SubgraphAssignmentProvider.clone (p : SubgraphAssignmentProvider) :
    SubgraphAssignmentProvider :=
  { logger := p.logger
    event_stream := none
    event_sink := p.event_sink
    resolver := p.resolver
    subgraphs_running := p.subgraphs_running
    store := p.store }

/-- `EventProducer::take_event_stream`: `Option::take` — returns the held
receiver (if any) and leaves `None` behind. -/
def take_event_stream (p : SubgraphAssignmentProvider) :
    Option Nat × SubgraphAssignmentProvider :=
  (p.event_stream, { p with event_stream := none })

/-- Result of the n-th (0-based) call of `take_event_stream` on the same
handle, threading the mutated handle through the earlier calls. -/
def nth_take (p : SubgraphAssignmentProvider) : Nat → Option Nat × SubgraphAssignmentProvider
  | 0 => take_event_stream p
  | n + 1 => nth_take (take_event_stream p).2 n

/-- Modelled from the spec: `EntityOperation` (from `graph::prelude`, not in
the sources) is "a create/update/remove instruction against one entity
type+id". -/
inductive EntityOperation where
  | create (entityType id : String)
  | update (entityType id : String)
  | remove (entityType id : String)
deriving Repr, DecidableEq

/-- `MappingContext` of `src/runtime/wasm/src/lib.rs`: the logger and the
`Arc<EthereumBlock>` are opaque tokens, `entity_operations` is the
`Vec<EntityOperation>` output accumulator. -/
structure MappingContext where
  logger : Nat
  block : Nat
  entity_operations : List EntityOperation
deriving Repr, DecidableEq

/-- The `Clone` implementation of `MappingContext`: clones all fields except
`entity_operations`, which is initialized with an empty `Vec`. -/
def MappingContext.clone (c : MappingContext) : MappingContext :=
  { logger := c.logger
    block := c.block
    entity_operations := [] }

/-- HTTP methods of the `hyper` crate. -/
inductive Method where
  | OPTIONS | GET | POST | PUT | DELETE | HEAD | TRACE | CONNECT | PATCH
deriving Repr, DecidableEq

/-- The parts of a `hyper::Request` the service inspects: method, URI path,
and body. -/
structure Request where
  method : Method
  path : String
  body : String
deriving Repr, DecidableEq

/-- An immediate `hyper::Response`: status code and body. -/
structure HyperResponse where
  status : Nat
  body : String
deriving Repr, DecidableEq

/-- Outcome of `GraphQLService::call`: either an immediate response, or the
request is handed to the asynchronous GraphQL query pipeline
(`handle_graphql_query`), whose eventual response depends on the query
system. -/
inductive ServiceOutcome where
  | response (r : HyperResponse)
  | graphql_query (req : Request)
deriving Repr, DecidableEq

/-- `GraphQLService::handle_not_found`: a 404 response with body
"Not found". -/
def handle_not_found (_req : Request) : ServiceOutcome :=
  .response { status := 404, body := "Not found" }

/-- `GraphQLService::handle_graphql_query`: the request enters the GraphQL
pipeline. -/
def handle_graphql_query (req : Request) : ServiceOutcome :=
  .graphql_query req

/-- `GraphQLService::call`: POST / is a GraphQL query, everything else is a
404. -/
def GraphQLService.call (req : Request) : ServiceOutcome :=
  match req.method, req.path with
  | .POST, "/" => handle_graphql_query req
  | _, _ => handle_not_found req

/-- An operation on the family of provider handles alive in a program:
cloning the handle at an index (appending the clone), or calling
`take_event_stream` on the handle at an index. -/
inductive HandleOp where
  | cloneOp (i : Nat)
  | takeOp (i : Nat)
deriving Repr, DecidableEq

/-- Apply one `HandleOp` to the list of live handles; the Bool records
whether a `take_event_stream` call returned `Some`.  Out-of-range indices
are no-ops. -/
def applyOp (hs : List SubgraphAssignmentProvider) (op : HandleOp) :
    List SubgraphAssignmentProvider × Bool :=
  match op with
  | .cloneOp i =>
    match hs[i]? with
    | some p => (hs ++ [p.clone], false)
    | none => (hs, false)
  | .takeOp i =>
    match hs[i]? with
    | some p => ((hs.set i (take_event_stream p).2), (take_event_stream p).1.isSome)
    | none => (hs, false)

/-- Run a sequence of handle operations, counting how many
`take_event_stream` calls returned `Some`. -/
def runOps (hs : List SubgraphAssignmentProvider) :
    List HandleOp → List SubgraphAssignmentProvider × Nat
  | [] => (hs, 0)
  | op :: ops =>
    let step := applyOp hs op
    let rest := runOps step.1 ops
    (rest.1, (if step.2 then 1 else 0) + rest.2)

/-- Number of live handles still holding the event-stream receiver. -/
def liveCount (hs : List SubgraphAssignmentProvider) : Nat :=
  hs.countP (fun p => p.event_stream.isSome)

theorem countP_set_some {α : Type} (q : α → Bool) :
    ∀ (l : List α) (i : Nat) (a b : α), l[i]? = some a →
      (l.set i b).countP q + (if q a then 1 else 0)
        = l.countP q + (if q b then 1 else 0)
  | [], i, a, b, h => by simp at h
  | x :: xs, 0, a, b, h => by
    simp at h
    subst h
    simp [List.countP_cons]
    omega
  | x :: xs, i + 1, a, b, h => by
    simp at h
    have ih := countP_set_some q xs i a b h
    simp [List.countP_cons]
    omega

theorem applyOp_liveCount (hs : List SubgraphAssignmentProvider) (op : HandleOp) :
    liveCount (applyOp hs op).1 + (if (applyOp hs op).2 then 1 else 0)
      = liveCount hs := by
  cases op with
  | cloneOp i =>
    cases h : hs[i]? with
    | none => simp [applyOp, h]
    | some p =>
      simp [applyOp, h, liveCount, List.countP_append, List.countP_cons,
        SubgraphAssignmentProvider.clone]
  | takeOp i =>
    cases h : hs[i]? with
    | none => simp [applyOp, h]
    | some p =>
      have hset := countP_set_some (fun q => q.event_stream.isSome) hs i p
        (take_event_stream p).2 h
      simp [applyOp, h, liveCount, take_event_stream] at hset ⊢
      omega

theorem runOps_liveCount : ∀ (ops : List HandleOp) (hs : List SubgraphAssignmentProvider),
    liveCount (runOps hs ops).1 + (runOps hs ops).2 = liveCount hs
  | [], hs => by simp [runOps]
  | op :: ops, hs => by
    have h1 := applyOp_liveCount hs op
    have h2 := runOps_liveCount ops (applyOp hs op).1
    simp only [runOps]
    omega

theorem nth_take_of_none : ∀ (n : Nat) (p : SubgraphAssignmentProvider),
    p.event_stream = none → (nth_take p n).1 = none
  | 0, p, hp => by simp [nth_take, take_event_stream, hp]
  | n + 1, p, _ => nth_take_of_none n (take_event_stream p).2 rfl

/-- Claim C1: after a successful manifest resolution, if the resolved
deployment id is already a member of the running-set then the
insert-if-absent fails, start returns AlreadyRunning carrying that id, and no
Start event is emitted; if the id was absent it is inserted and the call
emits Start(manifest). -/
theorem start_insert_if_absent
    (running : List SubgraphDeploymentId) (id : SubgraphDeploymentId)
    (m : SubgraphManifest) (idx : Except String Unit) :
    (m.id ∈ running →
      (start running id (.ok m) idx).result = .error (.AlreadyRunning m.id) ∧
      (start running id (.ok m) idx).events = [] ∧
      (start running id (.ok m) idx).subgraphs_running = running) ∧
    (m.id ∉ running →
      m.id ∈ (start running id (.ok m) idx).subgraphs_running ∧
      (start running id (.ok m) idx).events = [.SubgraphStart m] ∧
      (start running id (.ok m) idx).result = .ok ()) := by
  constructor
  · intro h
    simp [start, h]
  · intro h
    simp [start, h]

/-- Witness for C1: a duplicate start of "Qm" loses, a first start of "Qm2"
wins. -/
theorem start_insert_if_absent_witness :
    ((start ["Qm"] "Qm" (.ok ⟨"Qm", "doc"⟩) (.ok ())).result
        = .error (.AlreadyRunning "Qm") ∧
     (start ["Qm"] "Qm" (.ok ⟨"Qm", "doc"⟩) (.ok ())).events = [] ∧
     (start ["Qm"] "Qm" (.ok ⟨"Qm", "doc"⟩) (.ok ())).subgraphs_running = ["Qm"]) ∧
    ("Qm2" ∈ (start [] "Qm2" (.ok ⟨"Qm2", "doc"⟩) (.ok ())).subgraphs_running ∧
     (start [] "Qm2" (.ok ⟨"Qm2", "doc"⟩) (.ok ())).events
        = [.SubgraphStart ⟨"Qm2", "doc"⟩] ∧
     (start [] "Qm2" (.ok ⟨"Qm2", "doc"⟩) (.ok ())).result = .ok ()) :=
  ⟨(start_insert_if_absent ["Qm"] "Qm" ⟨"Qm", "doc"⟩ (.ok ())).1 (by decide),
   (start_insert_if_absent [] "Qm2" ⟨"Qm2", "doc"⟩ (.ok ())).2 (by decide)⟩

/-- Claim C2: every erroring start call — resolve failure or lost
insert-if-absent — persists the failed-flag (set to true for the
caller-supplied id) to the store as part of that call. -/
theorem start_error_persists_failed_flag
    (running : List SubgraphDeploymentId) (id : SubgraphDeploymentId)
    (res : Except String SubgraphManifest) (idx : Except String Unit)
    (e : SubgraphAssignmentProviderError)
    (h : (start running id res idx).result = .error e) :
    (start running id res idx).failed_flag_writes = [(id, true)] := by
  match res with
  | .error _ => simp [start]
  | .ok m =>
    by_cases hm : m.id ∈ running
    · simp [start, hm]
    · simp [start, hm] at h

/-- Witness for C2: a failing resolution of "Qm" records the failed-flag
write. -/
theorem start_error_persists_failed_flag_witness :
    (start [] "Qm" (.error "unreachable") (.ok ())).failed_flag_writes
      = [("Qm", true)] :=
  start_error_persists_failed_flag [] "Qm" (.error "unreachable") (.ok ())
    (.ResolveError "unreachable") rfl

/-- Claim C3: cloning a MappingContext yields a context whose
entity-operation accumulator is empty, whatever the original had
accumulated. -/
theorem mapping_context_clone_empty_accumulator (c : MappingContext) :
    (MappingContext.clone c).entity_operations = [] :=
  rfl

/-- Claim C4: stop removes a running id and emits Stop(id); on an absent id
(before any start, or on a second stop) it fails with NotRunning(id),
removes nothing and emits nothing. -/
theorem stop_removes_or_not_running
    (running : List SubgraphDeploymentId) (id : SubgraphDeploymentId) :
    (id ∈ running →
      (stop running id).result = .ok () ∧
      (stop running id).events = [.SubgraphStop id] ∧
      id ∉ (stop running id).subgraphs_running ∧
      ∀ x, x ≠ id → (x ∈ (stop running id).subgraphs_running ↔ x ∈ running)) ∧
    (id ∉ running →
      (stop running id).result = .error (.NotRunning id) ∧
      (stop running id).events = [] ∧
      (stop running id).subgraphs_running = running) := by
  constructor
  · intro h
    refine ⟨by simp [stop, h], by simp [stop, h], by simp [stop, h], ?_⟩
    intro x hx
    simp [stop, h, List.mem_filter, hx]
  · intro h
    simp [stop, h]

/-- Witness for C4: stopping "Qm" in the running-set with an unrelated member
"Other", and stopping "Qm" on the empty set. -/
theorem stop_removes_or_not_running_witness :
    ((stop ["Qm", "Other"] "Qm").result = .ok () ∧
     (stop ["Qm", "Other"] "Qm").events = [.SubgraphStop "Qm"] ∧
     "Qm" ∉ (stop ["Qm", "Other"] "Qm").subgraphs_running ∧
     ("Other" ∈ (stop ["Qm", "Other"] "Qm").subgraphs_running
        ↔ "Other" ∈ ["Qm", "Other"])) ∧
    ((stop [] "Qm").result = .error (.NotRunning "Qm") ∧
     (stop [] "Qm").events = [] ∧
     (stop [] "Qm").subgraphs_running = []) :=
  ⟨⟨((stop_removes_or_not_running ["Qm", "Other"] "Qm").1 (by decide)).1,
    ((stop_removes_or_not_running ["Qm", "Other"] "Qm").1 (by decide)).2.1,
    ((stop_removes_or_not_running ["Qm", "Other"] "Qm").1 (by decide)).2.2.1,
    ((stop_removes_or_not_running ["Qm", "Other"] "Qm").1 (by decide)).2.2.2
      "Other" (by decide)⟩,
   (stop_removes_or_not_running [] "Qm").2 (by decide)⟩

/-- Claim C5: on a freshly constructed provider the first take_event_stream
call yields the stream and every later call yields nothing. -/
theorem take_event_stream_one_shot (logger ch resolver running store : Nat) :
    (nth_take (SubgraphAssignmentProvider.new logger ch resolver running store) 0).1
      = some ch ∧
    ∀ n, (nth_take (SubgraphAssignmentProvider.new logger ch resolver running store)
      (n + 1)).1 = none := by
  refine ⟨rfl, fun n => ?_⟩
  exact nth_take_of_none n
    (take_event_stream (SubgraphAssignmentProvider.new logger ch resolver running store)).2
    rfl

/-- Claim C6: on the winning start path, a failure of the store's
entity-attribute-index construction is discarded: Start(manifest) is still
emitted and start succeeds. -/
theorem start_index_failure_discarded
    (running : List SubgraphDeploymentId) (id : SubgraphDeploymentId)
    (m : SubgraphManifest) (e : String)
    (h : m.id ∉ running) :
    (start running id (.ok m) (.error e)).result = .ok () ∧
    (start running id (.ok m) (.error e)).events = [.SubgraphStart m] := by
  simp [start, h]

/-- Witness for C6: an index-construction failure on a fresh start of "Qm"
does not fail the call. -/
theorem start_index_failure_discarded_witness :
    (start [] "Qm" (.ok ⟨"Qm", "doc"⟩) (.error "index error")).result = .ok () ∧
    (start [] "Qm" (.ok ⟨"Qm", "doc"⟩) (.error "index error")).events
      = [.SubgraphStart ⟨"Qm", "doc"⟩] :=
  start_index_failure_discarded [] "Qm" ⟨"Qm", "doc"⟩ "index error" (by decide)

/-- Claim C7: a failing manifest resolution returns ResolveError and leaves
the running-set unchanged (and emits no event). -/
theorem start_resolve_error_frame
    (running : List SubgraphDeploymentId) (id : SubgraphDeploymentId)
    (e : String) (idx : Except String Unit) :
    (start running id (.error e) idx).result = .error (.ResolveError e) ∧
    (start running id (.error e) idx).subgraphs_running = running ∧
    (start running id (.error e) idx).events = [] := by
  simp [start]

/-- Claim C8: any request whose method is not POST or whose path is not "/"
gets status 404; only POST "/" is handled as a GraphQL query. -/
theorem call_routes_post_root_only (req : Request) :
    (¬(req.method = .POST ∧ req.path = "/") →
      GraphQLService.call req = .response { status := 404, body := "Not found" }) ∧
    (req.method = .POST ∧ req.path = "/" →
      GraphQLService.call req = .graphql_query req) := by
  obtain ⟨m, p, b⟩ := req
  dsimp only
  constructor
  · intro h
    unfold GraphQLService.call
    dsimp only
    split
    · exact absurd ⟨rfl, rfl⟩ h
    · rfl
  · rintro ⟨hm, hp⟩
    subst hm
    subst hp
    rfl

/-- Witness for C8: a GET / gets a 404, a POST to another path gets a 404,
a POST / enters the query pipeline. -/
theorem call_routes_post_root_only_witness :
    GraphQLService.call ⟨.GET, "/", ""⟩
      = .response { status := 404, body := "Not found" } ∧
    GraphQLService.call ⟨.POST, "/other", ""⟩
      = .response { status := 404, body := "Not found" } ∧
    GraphQLService.call ⟨.POST, "/", "q"⟩ = .graphql_query ⟨.POST, "/", "q"⟩ :=
  ⟨(call_routes_post_root_only ⟨.GET, "/", ""⟩).1 (by decide),
   (call_routes_post_root_only ⟨.POST, "/other", ""⟩).1 (by decide),
   (call_routes_post_root_only ⟨.POST, "/", "q"⟩).2 ⟨rfl, rfl⟩⟩

/-- Claim C9: the membership check, the insertion and the AlreadyRunning
error are keyed by the resolved manifest's id, while the failed-flag write
uses the caller-supplied id; when they differ, AlreadyRunning carries the
manifest's id and the flag write carries the caller's. -/
theorem start_keys_by_manifest_id
    (running : List SubgraphDeploymentId) (id : SubgraphDeploymentId)
    (m : SubgraphManifest) (idx : Except String Unit) :
    (m.id ∈ running →
      (start running id (.ok m) idx).result = .error (.AlreadyRunning m.id) ∧
      (start running id (.ok m) idx).failed_flag_writes = [(id, true)]) ∧
    (m.id ∉ running →
      (start running id (.ok m) idx).subgraphs_running = m.id :: running) ∧
    (m.id ∈ running → m.id ≠ id →
      (start running id (.ok m) idx).result ≠ .error (.AlreadyRunning id) ∧
      (start running id (.ok m) idx).failed_flag_writes ≠ [(m.id, true)]) := by
  refine ⟨fun h => by simp [start, h], fun h => by simp [start, h], fun h hne => ?_⟩
  constructor
  · simp [start, h, hne]
  · simp [start, h, Ne.symm hne]

/-- Witness for C9: the manifest resolves to "A" while the caller passed "B";
"A" is running, so the error names "A" and the flag write names "B"; on an
empty set the insertion is keyed by "A". -/
theorem start_keys_by_manifest_id_witness :
    ((start ["A"] "B" (.ok ⟨"A", "doc"⟩) (.ok ())).result
        = .error (.AlreadyRunning "A") ∧
     (start ["A"] "B" (.ok ⟨"A", "doc"⟩) (.ok ())).failed_flag_writes
        = [("B", true)]) ∧
    ((start [] "B" (.ok ⟨"A", "doc"⟩) (.ok ())).subgraphs_running = ["A"]) ∧
    ((start ["A"] "B" (.ok ⟨"A", "doc"⟩) (.ok ())).result
        ≠ .error (.AlreadyRunning "B") ∧
     (start ["A"] "B" (.ok ⟨"A", "doc"⟩) (.ok ())).failed_flag_writes
        ≠ [("A", true)]) :=
  ⟨(start_keys_by_manifest_id ["A"] "B" ⟨"A", "doc"⟩ (.ok ())).1 (by decide),
   (start_keys_by_manifest_id [] "B" ⟨"A", "doc"⟩ (.ok ())).2.1 (by decide),
   (start_keys_by_manifest_id ["A"] "B" ⟨"A", "doc"⟩ (.ok ())).2.2 (by decide)
     (by decide)⟩

/-- Claim C10: the provider's internal clone holds no event-stream receiver
while sharing the sink, running-set cell, resolver and store of the
original; take_event_stream on a clone yields nothing; and over any sequence
of clone/take operations starting from a fresh provider, at most one
take_event_stream call in total yields the stream. -/
theorem clone_surrenders_stream_at_most_once :
    (∀ p : SubgraphAssignmentProvider,
      (SubgraphAssignmentProvider.clone p).event_stream = none ∧
      (SubgraphAssignmentProvider.clone p).event_sink = p.event_sink ∧
      (SubgraphAssignmentProvider.clone p).subgraphs_running = p.subgraphs_running ∧
      (SubgraphAssignmentProvider.clone p).resolver = p.resolver ∧
      (SubgraphAssignmentProvider.clone p).store = p.store) ∧
    (∀ p : SubgraphAssignmentProvider,
      (take_event_stream (SubgraphAssignmentProvider.clone p)).1 = none) ∧
    (∀ (logger ch resolver running store : Nat) (ops : List HandleOp),
      (runOps [SubgraphAssignmentProvider.new logger ch resolver running store]
        ops).2 ≤ 1) := by
  refine ⟨fun p => ⟨rfl, rfl, rfl, rfl, rfl⟩, fun p => rfl, ?_⟩
  intro logger ch resolver running store ops
  have h := runOps_liveCount ops
    [SubgraphAssignmentProvider.new logger ch resolver running store]
  have hlive :
      liveCount [SubgraphAssignmentProvider.new logger ch resolver running store]
        = 1 := rfl
  omega
